import Mathlib

/-!
Shallow embedding of the android-auto head-unit protocol engine
(repository `uglyoldbob/android-auto`), covering the framing layer
(`FrameHeaderContents`, `AndroidAutoFrame::build_multi_frame` in
`src/lib.rs`), the message encoders (`impl From<...> for AndroidAutoFrame`
in `src/control.rs`, `src/common.rs`, `src/sensor.rs`, `src/bluetooth.rs`,
`src/lib.rs`), the message decoders (`impl TryFrom<&AndroidAutoFrame>`),
and the per-channel handler logic (`receive_data`).

Modelling conventions:
* machine integers are `Nat` with explicit `% 2^w` where overflow matters;
* protobuf-generated code (tag enum numeric values, `write_to_bytes`,
  `parse_from_bytes`) is not part of the repository sources, so tag values
  and serialized bodies appear as explicit parameters / constructor fields;
* Rust panics (`unimplemented!`, `todo!`, out-of-range slice indexing) are
  modelled by an explicit `panic` result.
-/

/-- The frame fragment type, `FrameHeaderType` in `src/lib.rs`
(`Middle = 0, First = 1, Last = 2, Single = 3`). -/
inductive FrameHeaderType where
  | Middle
  | First
  | Last
  | Single
deriving DecidableEq, Repr

namespace FrameHeaderType

/-- `impl Into<u8> for FrameHeaderType` (the enum discriminant). -/
def toU8 : FrameHeaderType → Nat
  | .Middle => 0
  | .First => 1
  | .Last => 2
  | .Single => 3

/-- `impl From<u8> for FrameHeaderType`: `match value & 3`. -/
def ofU8 (value : Nat) : FrameHeaderType :=
  if value % 4 = 0 then .Middle
  else if value % 4 = 1 then .First
  else if value % 4 = 2 then .Last
  else .Single

end FrameHeaderType

/-- The flags byte of a frame header, the `bitfield!` struct
`FrameHeaderContents(u8)` in `src/lib.rs`: bit 3 = encryption,
bits 1..0 = frame type, bit 2 = control. -/
structure FrameHeaderContents where
  raw : Nat
deriving DecidableEq, Repr

namespace FrameHeaderContents

/-- `get_encryption`: bit 3 of the byte. -/
def get_encryption (c : FrameHeaderContents) : Bool := c.raw.testBit 3

/-- `get_control`: bit 2 of the byte. -/
def get_control (c : FrameHeaderContents) : Bool := c.raw.testBit 2

/-- `get_frame_type`: bits 1..0 of the byte. -/
def get_frame_type (c : FrameHeaderContents) : FrameHeaderType :=
  FrameHeaderType.ofU8 (c.raw % 4)

/-- `set_frame_type`: overwrite bits 1..0 of the byte. -/
def set_frame_type (c : FrameHeaderContents) (t : FrameHeaderType) : FrameHeaderContents :=
  ⟨c.raw - c.raw % 4 + t.toU8⟩

/-- The generated constructor (`impl new;`), whose arguments follow field
declaration order: encryption (bit 3), frame type (bits 1..0), control
(bit 2). -/
def new (enc : Bool) (t : FrameHeaderType) (ctrl : Bool) : FrameHeaderContents :=
  ⟨(if enc then 8 else 0) + (if ctrl then 4 else 0) + t.toU8⟩

end FrameHeaderContents

/-- The channel identifier enum `ChannelId` in `src/lib.rs` (the
MEDIA/SPEECH/SYSTEM audio constructors are spelled in camel case here). -/
inductive ChannelId where
  | CONTROL
  | INPUT
  | SENSOR
  | VIDEO
  | MediaAudio
  | SpeechAudio
  | SystemAudio
  | AV_INPUT
  | BLUETOOTH
  | NAVIGATION
  | MEDIA_STATUS
  | NONE
deriving DecidableEq, Repr

namespace ChannelId

/-- The `#[repr(u8)]` discriminant of each channel id. -/
def toU8 : ChannelId → Nat
  | .CONTROL => 0
  | .INPUT => 1
  | .SENSOR => 2
  | .VIDEO => 3
  | .MediaAudio => 4
  | .SpeechAudio => 5
  | .SystemAudio => 6
  | .AV_INPUT => 7
  | .BLUETOOTH => 8
  | .NAVIGATION => 9
  | .MEDIA_STATUS => 10
  | .NONE => 255

end ChannelId

/-- A frame header, `FrameHeader` in `src/lib.rs`. -/
structure FrameHeader where
  channel_id : ChannelId
  frame : FrameHeaderContents
deriving DecidableEq, Repr

/-- A protocol frame, `AndroidAutoFrame` in `src/lib.rs`; payload bytes are
modelled as a list of naturals (each intended `< 256`). -/
structure AndroidAutoFrame where
  header : FrameHeader
  data : List Nat
deriving DecidableEq, Repr

/-- `AndroidAutoFrame::MAX_FRAME_DATA_SIZE = 0x4000`. -/
def MAX_FRAME_DATA_SIZE : Nat := 0x4000

/-- Rust's `slice::chunks(n)`: split a list into consecutive chunks of `n`
elements, the last chunk possibly shorter.  (`chunks` is only called with
`n = MAX_FRAME_DATA_SIZE`; `n = 0` is guarded to make the recursion total.) -/
def listChunks (n : Nat) (l : List α) : List (List α) :=
  if l.isEmpty ∨ n = 0 then []
  else l.take n :: listChunks n (l.drop n)
termination_by l.length
decreasing_by
  simp only [List.length_drop]
  rename_i h
  rw [not_or] at h
  have h1 : l ≠ [] := by
    intro he
    exact h.1 (by simp [he])
  have h2 : 0 < n := Nat.pos_of_ne_zero h.2
  have h3 : 0 < l.length := List.length_pos.mpr h1
  omega

/-- `AndroidAutoFrame::build_multi_frame` in `src/lib.rs`: a payload shorter
than `MAX_FRAME_DATA_SIZE` is emitted as one frame with the given header;
otherwise the payload is chunked and the fragment type of each chunk's
header is overwritten with First / Last / Middle by enumeration index. -/
def build_multi_frame (f : FrameHeader) (d : List Nat) : List AndroidAutoFrame :=
  if d.length < MAX_FRAME_DATA_SIZE then
    [⟨f, d⟩]
  else
    let packets := listChunks MAX_FRAME_DATA_SIZE d
    let max := packets.length
    packets.enum.map (fun ip =>
      let ft : FrameHeaderType :=
        if ip.1 = 0 then .First
        else if ip.1 = max - 1 then .Last
        else .Middle
      ⟨⟨f.channel_id, f.frame.set_frame_type ft⟩, ip.2⟩)

/-- Big-endian byte pair of a `u16` (`u16::to_be_bytes`). -/
def u16be (n : Nat) : List Nat := [n / 256 % 256, n % 256]

/-- Big-endian interpretation of a byte list (`uNN::from_be_bytes`). -/
def beBytesToNat (l : List Nat) : Nat := l.foldl (fun a b => 256 * a + b) 0

/-- `2^64`, the modulus of Rust's 64-bit integer arithmetic. -/
def U64_MOD : Nat := 2 ^ 64

/-- The protobuf enum `Wifi::audio_focus_type::Enum`. -/
inductive AudioFocusType where
  | NONE
  | GAIN
  | GAIN_TRANSIENT
  | GAIN_NAVI
  | RELEASE
deriving DecidableEq, Repr

/-- The protobuf enum `Wifi::audio_focus_state::Enum` (the states this code
emits). -/
inductive AudioFocusState where
  | NONE
  | GAIN
  | GAIN_TRANSIENT
  | LOSS
deriving DecidableEq, Repr

/-- The protobuf enum `Wifi::status::Enum`. -/
inductive StatusEnum where
  | OK
  | FAIL
deriving DecidableEq, Repr

/-- The constructors of the protobuf enum `Wifi::ControlMessage`.  The
numeric tag value of each constructor lives in generated protobuf code that
is not part of the repository sources, so functions below take the value
assignment as a parameter. -/
inductive WifiControlTag where
  | VERSION_REQUEST
  | AUTH_COMPLETE
  | MESSAGE_NONE
  | SERVICE_DISCOVERY_RESPONSE
  | PING_REQUEST
  | NAVIGATION_FOCUS_REQUEST
  | NAVIGATION_FOCUS_RESPONSE
  | SHUTDOWN_REQUEST
  | SHUTDOWN_RESPONSE
  | VOICE_SESSION_REQUEST
  | AUDIO_FOCUS_RESPONSE
  | PING_RESPONSE
  | AUDIO_FOCUS_REQUEST
  | VERSION_RESPONSE
  | SSL_HANDSHAKE
  | SERVICE_DISCOVERY_REQUEST
deriving DecidableEq, Repr

/-- `AndroidAutoControlMessage` (`src/control.rs`), at the granularity the
frame encoder and decoder see it.  Protobuf bodies (`write_to_bytes` /
`parse_from_bytes` results) are carried as raw byte lists. -/
inductive AndroidAutoControlMessage where
  | VersionRequest
  | VersionResponse (major minor status : Nat)
  | SslHandshake (data : List Nat)
  | SslAuthComplete (status : Bool) (body : List Nat)
  | ServiceDiscoveryRequest (body : List Nat)
  | ServiceDiscoveryResponse (body : List Nat)
  | AudioFocusRequest (body : List Nat)
  | AudioFocusResponse (body : List Nat)
  | PingRequest (body : List Nat)
  | PingResponse (body : List Nat)
  | ShutdownRequest (body : List Nat)
  | ShutdownResponse (body : List Nat)
deriving DecidableEq, Repr

/-- `impl From<AndroidAutoControlMessage> for AndroidAutoFrame`
(`src/control.rs` lines 133–287).  `tag` supplies the numeric values of the
`Wifi::ControlMessage` constants; `unimplemented!()` arms yield `none`
(they panic and produce no frame).  Every produced frame is on channel 0,
with the encryption flag and `FrameHeaderContents::new` arguments copied
from the corresponding source arm; the `VersionRequest` payload carries
`VERSION = (1, 1)` as two big-endian `u16`s. -/
def controlMessageToFrame (tag : WifiControlTag → Nat) :
    AndroidAutoControlMessage → Option AndroidAutoFrame
  | .ShutdownRequest _ => none
  | .ShutdownResponse body =>
      some ⟨⟨.CONTROL, .new true .Single false⟩, u16be (tag .SHUTDOWN_RESPONSE) ++ body⟩
  | .PingResponse body =>
      some ⟨⟨.CONTROL, .new false .Single false⟩, u16be (tag .PING_RESPONSE) ++ body⟩
  | .PingRequest body =>
      some ⟨⟨.CONTROL, .new false .Single false⟩, u16be (tag .PING_REQUEST) ++ body⟩
  | .AudioFocusResponse body =>
      some ⟨⟨.CONTROL, .new true .Single false⟩, u16be (tag .AUDIO_FOCUS_RESPONSE) ++ body⟩
  | .AudioFocusRequest _ => none
  | .ServiceDiscoveryResponse body =>
      some ⟨⟨.CONTROL, .new true .Single false⟩,
        u16be (tag .SERVICE_DISCOVERY_RESPONSE) ++ body⟩
  | .VersionRequest =>
      some ⟨⟨.CONTROL, .new false .Single false⟩,
        u16be (tag .VERSION_REQUEST) ++ [0, 1, 0, 1]⟩
  | .SslHandshake data =>
      some ⟨⟨.CONTROL, .new false .Single false⟩, u16be (tag .SSL_HANDSHAKE) ++ data⟩
  | .SslAuthComplete _ body =>
      some ⟨⟨.CONTROL, .new false .Single false⟩, u16be (tag .AUTH_COMPLETE) ++ body⟩
  | .ServiceDiscoveryRequest _ => none
  | .VersionResponse _ _ _ => none

/-- `AndroidAutoCommonMessage` (`src/common.rs`). -/
inductive AndroidAutoCommonMessage where
  | ChannelOpenRequest (body : List Nat)
  | ChannelOpenResponse (chan : ChannelId) (body : List Nat)
deriving DecidableEq, Repr

/-- `impl From<AndroidAutoCommonMessage> for AndroidAutoFrame`
(`src/common.rs` lines 50–73): `ChannelOpenResponse(chan, m)` becomes a
frame on channel `chan` with flags `FrameHeaderContents::new(true,
FrameHeaderType::Single, true)`; the `ChannelOpenRequest` arm is
`unimplemented!()`. -/
def commonMessageToFrame (tag : Nat) :
    AndroidAutoCommonMessage → Option AndroidAutoFrame
  | .ChannelOpenResponse chan body =>
      some ⟨⟨chan, .new true .Single true⟩, u16be tag ++ body⟩
  | .ChannelOpenRequest _ => none

/-- `SensorMessage` (`src/sensor.rs`). -/
inductive SensorMessage where
  | SensorStartRequest (chan : ChannelId) (body : List Nat)
  | SensorStartResponse (chan : ChannelId) (body : List Nat)
  | Event (chan : ChannelId) (body : List Nat)
deriving DecidableEq, Repr

/-- `impl From<SensorMessage> for AndroidAutoFrame` (`src/sensor.rs` lines
23–61). -/
def sensorMessageToFrame (tagResponse tagEvent : Nat) :
    SensorMessage → Option AndroidAutoFrame
  | .SensorStartRequest _ _ => none
  | .SensorStartResponse chan body =>
      some ⟨⟨chan, .new true .Single false⟩, u16be tagResponse ++ body⟩
  | .Event chan body =>
      some ⟨⟨chan, .new true .Single false⟩, u16be tagEvent ++ body⟩

/-- `AvChannelMessage` (`src/lib.rs` lines 1008–1016). -/
inductive AvChannelMessage where
  | SetupRequest (chan : ChannelId) (body : List Nat)
  | SetupResponse (chan : ChannelId) (body : List Nat)
  | VideoFocusRequest (chan : ChannelId) (body : List Nat)
  | VideoIndicationResponse (chan : ChannelId) (body : List Nat)
  | StartIndication (chan : ChannelId) (body : List Nat)
  | MediaIndication (chan : ChannelId) (timestamp : Option Nat) (data : List Nat)
  | MediaIndicationAck (chan : ChannelId) (body : List Nat)
deriving DecidableEq, Repr

/-- `impl Into<AndroidAutoFrame> for AvChannelMessage` (`src/lib.rs` lines
1018–1075). -/
def avChannelMessageToFrame (tagAck tagSetupResponse tagVideoFocusIndication : Nat) :
    AvChannelMessage → Option AndroidAutoFrame
  | .MediaIndicationAck chan body =>
      some ⟨⟨chan, .new true .Single false⟩, u16be tagAck ++ body⟩
  | .SetupRequest _ _ => none
  | .SetupResponse chan body =>
      some ⟨⟨chan, .new true .Single false⟩, u16be tagSetupResponse ++ body⟩
  | .MediaIndication _ _ _ => none
  | .VideoFocusRequest _ _ => none
  | .VideoIndicationResponse chan body =>
      some ⟨⟨chan, .new true .Single false⟩, u16be tagVideoFocusIndication ++ body⟩
  | .StartIndication _ _ => none

/-- `InputMessage` (`src/lib.rs` lines 479–482). -/
inductive InputMessage where
  | BindingRequest (chan : ChannelId) (body : List Nat)
  | BindingResponse (chan : ChannelId) (body : List Nat)
deriving DecidableEq, Repr

/-- `impl Into<AndroidAutoFrame> for InputMessage` (`src/lib.rs` lines
484–506). -/
def inputMessageToFrame (tag : Nat) : InputMessage → Option AndroidAutoFrame
  | .BindingRequest _ _ => none
  | .BindingResponse chan body =>
      some ⟨⟨chan, .new true .Single false⟩, u16be tag ++ body⟩

/-- `BluetoothMessage` (`src/bluetooth.rs`). -/
inductive BluetoothMessage where
  | PairingRequest (chan : ChannelId) (body : List Nat)
  | PairingResponse (chan : ChannelId) (body : List Nat)
  | Auth
deriving DecidableEq, Repr

/-- `impl From<BluetoothMessage> for AndroidAutoFrame` (`src/bluetooth.rs`
lines 23–46). -/
def bluetoothMessageToFrame (tag : Nat) : BluetoothMessage → Option AndroidAutoFrame
  | .PairingRequest _ _ => none
  | .PairingResponse chan body =>
      some ⟨⟨chan, .new true .Single false⟩, u16be tag ++ body⟩
  | .Auth => none

/-- Summary of the encryption flag the control-message encoder
(`src/control.rs` lines 133–287) puts on each frame-producing arm. -/
def controlFrameEncrypted : AndroidAutoControlMessage → Bool
  | .ShutdownResponse _ => true
  | .AudioFocusResponse _ => true
  | .ServiceDiscoveryResponse _ => true
  | _ => false

/-- A service-discovery channel descriptor (`Wifi::ChannelDescriptor`);
only the `channel_id` field set by every `build_channel` implementation is
modelled, the capability payload being opaque protobuf. -/
structure ChannelDescriptor where
  channel_id : Nat
deriving DecidableEq, Repr

/-- The fixed visit order `chan_visit = [7, 4, 5, 6, 2, 3, 8, 9, 10, 1]` of
`handle_client` (`src/lib.rs` line 1743). -/
def chanVisit : List Nat := [7, 4, 5, 6, 2, 3, 8, 9, 10, 1]

/-- The descriptor assembly loop of `handle_client` (`src/lib.rs` lines
1742–1751): visit the handler vector at the indices of `chan_visit` and
keep each `Some(descriptor)`; `build i` stands for
`channel_handlers[i].build_channel(config, i)`. -/
def assembleChannels (build : Nat → Option ChannelDescriptor) : List ChannelDescriptor :=
  chanVisit.filterMap build

/-- Modelled from the spec: the channel list claim C4 describes — the
`Some(descriptor)` results of the registered handlers taken in
handler-registration (declaration) order, i.e. vector indices 0, 1, …, 10
in that order.  This definition follows the claim's words and exists to be
compared against `assembleChannels`, which follows the source. -/
def specDeclarationOrderChannels (build : Nat → Option ChannelDescriptor) :
    List ChannelDescriptor :=
  (List.range 11).filterMap build

/-- `HeadUnitInfo` (`src/lib.rs`). -/
structure HeadUnitInfo where
  name : String
  car_model : String
  car_year : String
  car_serial : String
  left_hand : Bool
  head_manufacturer : String
  head_model : String
  sw_build : String
  sw_version : String
  native_media : Bool
  hide_clock : Option Bool
deriving DecidableEq, Repr

/-- The fields of the `Wifi::ServiceDiscoveryResponse` that
`ControlChannelHandler::receive_data` fills in (`src/control.rs` lines
394–417). -/
structure ServiceDiscoveryResponseData where
  car_model : String
  can_play_native_media_during_vr : Bool
  car_serial : String
  car_year : String
  head_unit_name : String
  headunit_manufacturer : String
  headunit_model : String
  hide_clock : Option Bool
  left_hand_drive_vehicle : Bool
  sw_build : String
  sw_version : String
  channels : List ChannelDescriptor
deriving DecidableEq, Repr

/-- The decoded control messages `ControlChannelHandler::receive_data`
dispatches on (`src/control.rs` lines 333–447), with just the fields the
handler reads: the shutdown reason comparison with `QUIT`, the ping
timestamp, the optional audio focus type (`has_audio_focus_type` +
`audio_focus_type`), raw handshake bytes, and the version triple. -/
inductive ControlIn where
  | ShutdownResponse
  | ShutdownRequest (reasonIsQuit : Bool)
  | PingResponse
  | PingRequest (timestamp : Nat)
  | AudioFocusResponse
  | AudioFocusRequest (ty : Option AudioFocusType)
  | ServiceDiscoveryResponse
  | ServiceDiscoveryRequest
  | SslAuthComplete
  | SslHandshake (data : List Nat)
  | VersionRequest
  | VersionResponse (major minor status : Nat)
deriving DecidableEq, Repr

/-- The observable actions of `ControlChannelHandler::receive_data`: frames
written through `stream.write_frame` and the `StreamMux` handshake calls. -/
inductive ControlOut where
  | writeShutdownResponse
  | writePingResponse (timestamp : Nat)
  | writeAudioFocusResponse (state : AudioFocusState)
  | writeServiceDiscoveryResponse (resp : ServiceDiscoveryResponseData)
  | doHandshake (data : List Nat)
  | writeAuthComplete (ok : Bool)
  | startHandshake
deriving DecidableEq, Repr

/-- How `ControlChannelHandler::receive_data` can fail: the
`std::io::Error::other` results and panics of `unimplemented!()` arms. -/
inductive ControlErr where
  | shutdownRequestedByPeer
  | versionMismatch
  | panicked
deriving DecidableEq, Repr

/-- The audio-focus state selection of the `AudioFocusRequest` arm
(`src/control.rs` lines 365–391): `has_audio_focus_type` false gives NONE,
otherwise NONE ↦ NONE, GAIN ↦ GAIN, GAIN_TRANSIENT ↦ GAIN_TRANSIENT,
GAIN_NAVI ↦ GAIN, RELEASE ↦ LOSS. -/
def audioFocusStateFor : Option AudioFocusType → AudioFocusState
  | none => .NONE
  | some .NONE => .NONE
  | some .GAIN => .GAIN
  | some .GAIN_TRANSIENT => .GAIN_TRANSIENT
  | some .GAIN_NAVI => .GAIN
  | some .RELEASE => .LOSS

/-- `ControlChannelHandler::receive_data` (`src/control.rs` lines 333–447)
as a pure step: given the head-unit configuration, the stored channel list
(`inner.channels`, filled by `set_channels`), and the TLS engine's
`is_handshaking` observation after `do_handshake`, map a decoded message to
the emitted actions (in emission order) and the final result.  64-bit
arithmetic wraps modulo `2^64`. -/
def controlReceive (config : HeadUnitInfo) (channels : List ChannelDescriptor)
    (stillHandshakingAfter : Bool) : ControlIn → List ControlOut × Option ControlErr
  | .ShutdownResponse => ([], some .panicked)
  | .ShutdownRequest reasonIsQuit =>
      if reasonIsQuit then ([.writeShutdownResponse], some .shutdownRequestedByPeer)
      else ([], none)
  | .PingResponse => ([], none)
  | .PingRequest timestamp =>
      ([.writePingResponse ((timestamp + 1) % U64_MOD)], none)
  | .AudioFocusResponse => ([], some .panicked)
  | .AudioFocusRequest ty =>
      ([.writeAudioFocusResponse (audioFocusStateFor ty)], none)
  | .ServiceDiscoveryResponse => ([], some .panicked)
  | .ServiceDiscoveryRequest =>
      ([.writeServiceDiscoveryResponse {
          car_model := config.car_model
          can_play_native_media_during_vr := config.native_media
          car_serial := config.car_serial
          car_year := config.car_year
          head_unit_name := config.name
          headunit_manufacturer := config.head_manufacturer
          headunit_model := config.head_model
          hide_clock := config.hide_clock
          left_hand_drive_vehicle := config.left_hand
          sw_build := config.sw_build
          sw_version := config.sw_version
          channels := channels }], none)
  | .SslAuthComplete => ([], some .panicked)
  | .SslHandshake data =>
      (.doHandshake data ::
        (if !stillHandshakingAfter then [.writeAuthComplete true] else []), none)
  | .VersionRequest => ([], some .panicked)
  | .VersionResponse _ _ status =>
      if status = 0xFFFF then ([], some .versionMismatch)
      else ([.startHandshake], none)

/-- The sensor types `SensorChannelHandler::receive_data` distinguishes
(`src/sensor.rs` lines 147–161): `DRIVING_STATUS`, `NIGHT_DATA`, and the
wildcard arm `_ => todo!()` grouping every other `Wifi::sensor_type`
constructor. -/
inductive SensorType where
  | DRIVING_STATUS
  | NIGHT_DATA
  | OTHER
deriving DecidableEq, Repr

/-- The protobuf enum `Wifi::DrivingStatusEnum` (the value the handler
emits). -/
inductive DrivingStatusEnum where
  | UNRESTRICTED
deriving DecidableEq, Repr

/-- Frames written by the sensor handler's `SensorStartRequest` arm. -/
inductive SensorOut where
  | writeSensorStartResponse (status : StatusEnum)
  | writeDrivingStatusEvent (status : DrivingStatusEnum)
  | writeNightModeEvent (is_night : Bool)
deriving DecidableEq, Repr

/-- Failure of the sensor handler: the wildcard `todo!()` panic. -/
inductive SensorErr where
  | panicked
deriving DecidableEq, Repr

/-- `SensorChannelHandler::receive_data`, `SensorStartRequest` arm
(`src/sensor.rs` lines 139–165): write `SENSOR_START_RESPONSE{OK}`, then an
immediate `SENSOR_EVENT_INDICATION` depending on the sensor type
(`DrivingStatus{UNRESTRICTED}` or `NightMode{is_night = false}`), panicking
(`todo!()`) on any other type.  `startSensorResult` models the outcome of
the integration's start-sensor operation; the source never consults the
integration (`_main` is unused), so the argument is ignored. -/
def sensorReceiveStart (startSensorResult : Bool) (ty : SensorType) :
    List SensorOut × Option SensorErr :=
  match ty with
  | .DRIVING_STATUS =>
      ([.writeSensorStartResponse .OK, .writeDrivingStatusEvent .UNRESTRICTED], none)
  | .NIGHT_DATA =>
      ([.writeSensorStartResponse .OK, .writeNightModeEvent false], none)
  | .OTHER => ([.writeSensorStartResponse .OK], some .panicked)

/-- Modelled from the spec: the `SENSOR_START_RESPONSE` status claim C8
prescribes (spec §4.5.3) — `OK` when the integration's `start_sensor`
succeeded, `FAIL` otherwise.  Exists to be compared with
`sensorReceiveStart`, which follows the source. -/
def specSensorStartStatus (startSensorResult : Bool) : StatusEnum :=
  if startSensorResult then .OK else .FAIL

/-- The protobuf enum `Wifi::video_focus_mode::Enum` at the granularity the
video handler uses it (comparison and echo of `FOCUSED`). -/
inductive VideoFocusMode where
  | FOCUSED
  | UNFOCUSED
deriving DecidableEq, Repr

/-- The decoded `AvChannelMessage` inputs of
`VideoChannelHandler::receive_data` (`src/video.rs` lines 111–175), with
the fields the handler reads. -/
inductive VideoIn where
  | MediaIndicationAck
  | MediaIndication (timestamp : Option Nat) (data : List Nat)
  | SetupRequest
  | SetupResponse
  | VideoFocusRequest (mode : VideoFocusMode)
  | VideoIndicationResponse
  | StartIndication (session : Int)
deriving DecidableEq, Repr

/-- The observable actions of the video handler: integration callbacks and
frames written through `stream.write_frame`. -/
inductive VideoOut where
  | deliverVideo (data : List Nat) (timestamp : Option Nat)
  | writeMediaAck (chan : ChannelId) (session : Int) (value : Nat)
  | writeSetupResponse (chan : ChannelId) (maxUnacked : Nat) (statusOk : Bool)
      (configs : List Nat)
  | waitForFocus
  | writeVideoFocusIndication (chan : ChannelId) (mode : VideoFocusMode)
      (unrequested : Bool)
  | setFocus (focused : Bool)
deriving DecidableEq, Repr

/-- Failure of the video handler: the `VideoChannelNotOpen` sequence error
and the `unimplemented!()` panics. -/
inductive VideoErr where
  | videoChannelNotOpen
  | panicked
deriving DecidableEq, Repr

/-- `VideoChannelHandler::receive_data`, `AvChannelMessage` arms
(`src/video.rs` lines 111–175), as a pure step over the handler state
`inner.session : Option<i32>`.  Returns the state after the message, the
actions emitted in order, and the result.  `supportsVideo` models
`main.supports_video().is_some()`. -/
def videoReceiveAv (supportsVideo : Bool) (chan : ChannelId) (session : Option Int) :
    VideoIn → Option Int × List VideoOut × Option VideoErr
  | .MediaIndicationAck => (session, [], some .panicked)
  | .MediaIndication timestamp data =>
      if supportsVideo then
        match session with
        | some s =>
            (session, [.deliverVideo data timestamp, .writeMediaAck chan s 1], none)
        | none =>
            (session, [.deliverVideo data timestamp], some .videoChannelNotOpen)
      else (session, [], none)
  | .SetupRequest =>
      (session, .writeSetupResponse chan 1 true [0] ::
        (if supportsVideo then [.waitForFocus, .writeVideoFocusIndication chan .FOCUSED false]
         else []), none)
  | .SetupResponse => (session, [], some .panicked)
  | .VideoFocusRequest mode =>
      if supportsVideo then
        (session, [.setFocus (mode = .FOCUSED), .writeVideoFocusIndication chan mode false],
          none)
      else (session, [], none)
  | .VideoIndicationResponse => (session, [], some .panicked)
  | .StartIndication s => (some s, [], none)

/-- The effect of one AV message on the handler state `inner.session`:
only the `StartIndication` arm writes it (`src/video.rs` lines 169–172). -/
def videoSessionStep (st : Option Int) (m : VideoIn) : Option Int :=
  match m with
  | .StartIndication s => some s
  | _ => st

/-- The session carried by one AV message when it is a `StartIndication`. -/
def startSessionOf (m : VideoIn) : Option Int :=
  match m with
  | .StartIndication s => some s
  | _ => none

/-- The `inner.session` state after a sequence of AV messages, starting
from the fresh handler state `None`. -/
def videoSessionAfter (trace : List VideoIn) : Option Int :=
  trace.foldl videoSessionStep none

/-- The session value of the most recent `AV_START_INDICATION` in a trace,
if any — the quantity claim C9 speaks about. -/
def lastStartSession (trace : List VideoIn) : Option Int :=
  (trace.filterMap startSessionOf).getLast?

/-- The outcome of a `TryFrom<&AndroidAutoFrame>` conversion: a Rust panic,
the conversion's `Err(String)` value, or a decoded message. -/
inductive DecodeResult (α : Type) where
  | panicked
  | err (msg : String)
  | ok (v : α)
deriving DecidableEq, Repr

/-- The first step shared verbatim by every message decoder:
`let mut ty = [0u8; 2]; ty.copy_from_slice(&value.data[0..2]);
let ty = u16::from_be_bytes(ty);`.  Rust's slice indexing `data[0..2]`
panics when the payload holds fewer than 2 bytes; otherwise the 2-byte
big-endian tag is read. -/
def readTagU16 (d : List Nat) : DecodeResult Nat :=
  if 2 ≤ d.length then .ok (256 * d.getD 0 0 + d.getD 1 0) else .panicked

/-- `impl TryFrom<&AndroidAutoFrame> for AndroidAutoControlMessage`
(`src/control.rs` lines 48–130).  `dispatch` models
`Wifi::ControlMessage::from_i32`; each `parse…` argument models the success
of the protobuf `parse_from_bytes` for the corresponding message type
(generated code not present in the sources). -/
def controlFrameDecode (dispatch : Nat → Option WifiControlTag)
    (parsePing parseShutdown parsePingResp parseAudioFocus parseServiceDiscovery :
      List Nat → Bool)
    (f : AndroidAutoFrame) : DecodeResult AndroidAutoControlMessage :=
  match readTagU16 f.data with
  | .panicked => .panicked
  | .err e => .err e
  | .ok ty =>
    if !f.header.frame.get_control then
      match dispatch ty with
      | none => .err "Unknown packet type"
      | some t =>
        match t with
        | .VERSION_REQUEST => .panicked
        | .AUTH_COMPLETE => .panicked
        | .MESSAGE_NONE => .panicked
        | .SERVICE_DISCOVERY_RESPONSE => .panicked
        | .PING_REQUEST =>
            if parsePing (f.data.drop 2) then .ok (.PingRequest (f.data.drop 2))
            else .err "Invalid ping request"
        | .NAVIGATION_FOCUS_REQUEST => .panicked
        | .NAVIGATION_FOCUS_RESPONSE => .panicked
        | .SHUTDOWN_REQUEST =>
            if parseShutdown (f.data.drop 2) then .ok (.ShutdownRequest (f.data.drop 2))
            else .err "Invalid shutdown request"
        | .SHUTDOWN_RESPONSE => .panicked
        | .VOICE_SESSION_REQUEST => .panicked
        | .AUDIO_FOCUS_RESPONSE => .panicked
        | .PING_RESPONSE =>
            if parsePingResp (f.data.drop 2) then .ok (.PingResponse (f.data.drop 2))
            else .err "Invalid ping response"
        | .AUDIO_FOCUS_REQUEST =>
            if parseAudioFocus (f.data.drop 2) then .ok (.AudioFocusRequest (f.data.drop 2))
            else .err "Invalid audio focus request"
        | .VERSION_RESPONSE =>
            if f.data.length = 8 then
              .ok (.VersionResponse
                (256 * f.data.getD 2 0 + f.data.getD 3 0)
                (256 * f.data.getD 4 0 + f.data.getD 5 0)
                (256 * f.data.getD 6 0 + f.data.getD 7 0))
            else .err "Invalid version response packet"
        | .SSL_HANDSHAKE => .ok (.SslHandshake (f.data.drop 2))
        | .SERVICE_DISCOVERY_REQUEST =>
            if parseServiceDiscovery (f.data.drop 2) then
              .ok (.ServiceDiscoveryRequest (f.data.drop 2))
            else .err "Invalid service discovery request"
    else .err "Unhandled specific message"

/-- The constructors of the protobuf enum `Wifi::CommonMessage`. -/
inductive WifiCommonTag where
  | CHANNEL_OPEN_RESPONSE
  | CHANNEL_OPEN_REQUEST
deriving DecidableEq, Repr

/-- `impl TryFrom<&AndroidAutoFrame> for AndroidAutoCommonMessage`
(`src/common.rs` lines 17–47). -/
def commonFrameDecode (dispatch : Nat → Option WifiCommonTag)
    (parseChannelOpen : List Nat → Bool) (f : AndroidAutoFrame) :
    DecodeResult AndroidAutoCommonMessage :=
  match readTagU16 f.data with
  | .panicked => .panicked
  | .err e => .err e
  | .ok ty =>
    if f.header.frame.get_control then
      match dispatch ty with
      | none => .err "Unknown packet type"
      | some .CHANNEL_OPEN_RESPONSE => .panicked
      | some .CHANNEL_OPEN_REQUEST =>
          if parseChannelOpen (f.data.drop 2) then
            .ok (.ChannelOpenRequest (f.data.drop 2))
          else .err "Invalid channel open request"
    else .err "Unhandled specific message"

/-- The constructors of the protobuf enum
`Wifi::input_channel_message::Enum`. -/
inductive WifiInputTag where
  | BINDING_REQUEST
  | BINDING_RESPONSE
  | INPUT_EVENT_INDICATION
  | NONE
deriving DecidableEq, Repr

/-- `impl TryFrom<&AndroidAutoFrame> for InputMessage` (`src/lib.rs` lines
508–532): `BINDING_REQUEST` parses, `BINDING_RESPONSE` is
`unimplemented!()`, the remaining constructors are `todo!()`. -/
def inputFrameDecode (dispatch : Nat → Option WifiInputTag)
    (parseBinding : List Nat → Bool) (f : AndroidAutoFrame) :
    DecodeResult InputMessage :=
  match readTagU16 f.data with
  | .panicked => .panicked
  | .err e => .err e
  | .ok ty =>
    match dispatch ty with
    | none => .err "Not converted message"
    | some .BINDING_REQUEST =>
        if parseBinding (f.data.drop 2) then
          .ok (.BindingRequest f.header.channel_id (f.data.drop 2))
        else .err "Invalid input bind request"
    | some .BINDING_RESPONSE => .panicked
    | some .INPUT_EVENT_INDICATION => .panicked
    | some .NONE => .panicked

/-- The constructors of the protobuf enum `Wifi::avchannel_message::Enum`. -/
inductive WifiAvTag where
  | AV_MEDIA_WITH_TIMESTAMP_INDICATION
  | AV_MEDIA_INDICATION
  | SETUP_REQUEST
  | START_INDICATION
  | STOP_INDICATION
  | SETUP_RESPONSE
  | AV_MEDIA_ACK_INDICATION
  | AV_INPUT_OPEN_REQUEST
  | AV_INPUT_OPEN_RESPONSE
  | VIDEO_FOCUS_REQUEST
  | VIDEO_FOCUS_INDICATION
deriving DecidableEq, Repr

/-- `impl TryFrom<&AndroidAutoFrame> for AvChannelMessage` (`src/lib.rs`
lines 1077–1139).  The timestamped-media arm additionally slices
`data[2..10]` (a second panic point when the payload is shorter than 10
bytes) and takes the remaining bytes as the media payload. -/
def avFrameDecode (dispatch : Nat → Option WifiAvTag)
    (parseSetup parseStart parseVideoFocus : List Nat → Bool)
    (f : AndroidAutoFrame) : DecodeResult AvChannelMessage :=
  match readTagU16 f.data with
  | .panicked => .panicked
  | .err e => .err e
  | .ok ty =>
    match dispatch ty with
    | none => .err "Not converted message"
    | some t =>
      match t with
      | .AV_MEDIA_WITH_TIMESTAMP_INDICATION =>
          if 10 ≤ f.data.length then
            .ok (.MediaIndication f.header.channel_id
              (some (beBytesToNat ((f.data.drop 2).take 8))) (f.data.drop 10))
          else .panicked
      | .AV_MEDIA_INDICATION =>
          .ok (.MediaIndication f.header.channel_id none (f.data.drop 2))
      | .SETUP_REQUEST =>
          if parseSetup (f.data.drop 2) then
            .ok (.SetupRequest f.header.channel_id (f.data.drop 2))
          else .err "Invalid channel open request"
      | .START_INDICATION =>
          if parseStart (f.data.drop 2) then
            .ok (.StartIndication f.header.channel_id (f.data.drop 2))
          else .err "Invalid channel open request"
      | .STOP_INDICATION => .panicked
      | .SETUP_RESPONSE => .panicked
      | .AV_MEDIA_ACK_INDICATION => .panicked
      | .AV_INPUT_OPEN_REQUEST => .panicked
      | .AV_INPUT_OPEN_RESPONSE => .panicked
      | .VIDEO_FOCUS_REQUEST =>
          if parseVideoFocus (f.data.drop 2) then
            .ok (.VideoFocusRequest f.header.channel_id (f.data.drop 2))
          else .err "Invalid channel open request"
      | .VIDEO_FOCUS_INDICATION => .panicked

/-- The constructors of the protobuf enum
`Wifi::sensor_channel_message::Enum`. -/
inductive WifiSensorTag where
  | SENSOR_START_REQUEST
  | SENSOR_START_RESPONSE
  | SENSOR_EVENT_INDICATION
  | NONE
deriving DecidableEq, Repr

/-- `impl TryFrom<&AndroidAutoFrame> for SensorMessage` (`src/sensor.rs`
lines 63–87). -/
def sensorFrameDecode (dispatch : Nat → Option WifiSensorTag)
    (parseStart : List Nat → Bool) (f : AndroidAutoFrame) :
    DecodeResult SensorMessage :=
  match readTagU16 f.data with
  | .panicked => .panicked
  | .err e => .err e
  | .ok ty =>
    match dispatch ty with
    | none => .err "Not converted message"
    | some .SENSOR_START_REQUEST =>
        if parseStart (f.data.drop 2) then
          .ok (.SensorStartRequest f.header.channel_id (f.data.drop 2))
        else .err "parse error"
    | some .SENSOR_START_RESPONSE => .panicked
    | some .SENSOR_EVENT_INDICATION => .panicked
    | some .NONE => .panicked

/-- The constructors of the protobuf enum
`Wifi::bluetooth_channel_message::Enum`. -/
inductive WifiBluetoothTag where
  | PAIRING_REQUEST
  | PAIRING_RESPONSE
  | AUTH_DATA
  | NONE
deriving DecidableEq, Repr

/-- `impl TryFrom<&AndroidAutoFrame> for BluetoothMessage`
(`src/bluetooth.rs` lines 48–72). -/
def bluetoothFrameDecode (dispatch : Nat → Option WifiBluetoothTag)
    (parsePairing : List Nat → Bool) (f : AndroidAutoFrame) :
    DecodeResult BluetoothMessage :=
  match readTagU16 f.data with
  | .panicked => .panicked
  | .err e => .err e
  | .ok ty =>
    match dispatch ty with
    | none => .err "Not converted message"
    | some .PAIRING_REQUEST =>
        if parsePairing (f.data.drop 2) then
          .ok (.PairingRequest f.header.channel_id (f.data.drop 2))
        else .err "parse error"
    | some .PAIRING_RESPONSE => .panicked
    | some .AUTH_DATA => .panicked
    | some .NONE => .panicked

/-- `NavigationMessage` (`src/navigation.rs`). -/
inductive NavigationMessage where
  | Status (chan : ChannelId) (body : List Nat)
  | TurnIndication (chan : ChannelId) (body : List Nat)
  | DistanceIndication (chan : ChannelId) (body : List Nat)
deriving DecidableEq, Repr

/-- The constructors of the protobuf enum
`Wifi::navigation_channel_message::Enum`. -/
inductive WifiNavigationTag where
  | STATUS
  | NONE
  | TURN_EVENT
  | DISTANCE_EVENT
deriving DecidableEq, Repr

/-- `impl TryFrom<&AndroidAutoFrame> for NavigationMessage`
(`src/navigation.rs` lines 31–67). -/
def navigationFrameDecode (dispatch : Nat → Option WifiNavigationTag)
    (parseStatus parseTurn parseDistance : List Nat → Bool)
    (f : AndroidAutoFrame) : DecodeResult NavigationMessage :=
  match readTagU16 f.data with
  | .panicked => .panicked
  | .err e => .err e
  | .ok ty =>
    match dispatch ty with
    | none => .err "Not converted message"
    | some .STATUS =>
        if parseStatus (f.data.drop 2) then
          .ok (.Status f.header.channel_id (f.data.drop 2))
        else .err "Invalid frame"
    | some .NONE => .panicked
    | some .TURN_EVENT =>
        if parseTurn (f.data.drop 2) then
          .ok (.TurnIndication f.header.channel_id (f.data.drop 2))
        else .err "Invalid frame"
    | some .DISTANCE_EVENT =>
        if parseDistance (f.data.drop 2) then
          .ok (.DistanceIndication f.header.channel_id (f.data.drop 2))
        else .err "Invalid frame"

/-- `MediaStatusMessage` (`src/mediastatus.rs`). -/
inductive MediaStatusMessage where
  | Playback (chan : ChannelId) (body : List Nat)
  | Metadata (chan : ChannelId) (body : List Nat)
  | Invalid
deriving DecidableEq, Repr

/-- The constructors of the protobuf enum
`Wifi::media_info_channel_message::Enum`. -/
inductive WifiMediaInfoTag where
  | PLAYBACK
  | METADATA
  | NONE
deriving DecidableEq, Repr

/-- `impl TryFrom<&AndroidAutoFrame> for MediaStatusMessage`
(`src/mediastatus.rs` lines 31–60): note that the playback / metadata arms
parse the whole `value.data` (tag included) and downgrade a parse failure
to `Ok(Invalid)` rather than `Err`. -/
def mediaStatusFrameDecode (dispatch : Nat → Option WifiMediaInfoTag)
    (parsePlayback parseMetadata : List Nat → Bool)
    (f : AndroidAutoFrame) : DecodeResult MediaStatusMessage :=
  match readTagU16 f.data with
  | .panicked => .panicked
  | .err e => .err e
  | .ok ty =>
    match dispatch ty with
    | none => .err "Not converted message"
    | some .PLAYBACK =>
        if parsePlayback f.data then .ok (.Playback f.header.channel_id f.data)
        else .ok .Invalid
    | some .METADATA =>
        if parseMetadata f.data then .ok (.Metadata f.header.channel_id f.data)
        else .ok .Invalid
    | some .NONE => .panicked

/-- A concrete head-unit configuration, for evaluating the handler step on
concrete inputs. -/
def demoConfig : HeadUnitInfo where
  name := "unit"
  car_model := "model"
  car_year := "2024"
  car_serial := "serial"
  left_hand := true
  head_manufacturer := "maker"
  head_model := "head"
  sw_build := "1"
  sw_version := "1.0"
  native_media := false
  hide_clock := none

/-- A concrete handler table in the shape of the source's `build_channel`
implementations: the control handler (index 0) yields no descriptor, every
other handler yields a descriptor carrying its own channel index. -/
def demoBuild (i : Nat) : Option ChannelDescriptor :=
  if i = 0 then none else some ⟨i⟩

/-- A concrete single-fragment frame header
(`FrameHeaderContents::new(false, Single, false)`). -/
def demoHeader : FrameHeader := ⟨.VIDEO, .new false .Single false⟩

/-- A concrete frame with an empty payload, for evaluating the decoders. -/
def demoEmptyFrame : AndroidAutoFrame := ⟨demoHeader, []⟩

theorem new_get_control (e : Bool) (t : FrameHeaderType) (c : Bool) :
    (FrameHeaderContents.new e t c).get_control = c := by
  cases e <;> cases c <;> cases t <;> decide

theorem new_get_encryption (e : Bool) (t : FrameHeaderType) (c : Bool) :
    (FrameHeaderContents.new e t c).get_encryption = e := by
  cases e <;> cases c <;> cases t <;> decide

theorem get_set_frame_type (c : FrameHeaderContents) (t : FrameHeaderType) :
    (c.set_frame_type t).get_frame_type = t := by
  cases t
  case Middle =>
    have h : (c.raw - c.raw % 4) % 4 = 0 := by omega
    simp [FrameHeaderContents.set_frame_type, FrameHeaderContents.get_frame_type,
      FrameHeaderType.ofU8, FrameHeaderType.toU8, h]
  case First =>
    have h : (c.raw - c.raw % 4 + 1) % 4 = 1 := by omega
    simp [FrameHeaderContents.set_frame_type, FrameHeaderContents.get_frame_type,
      FrameHeaderType.ofU8, FrameHeaderType.toU8, h]
  case Last =>
    have h : (c.raw - c.raw % 4 + 2) % 4 = 2 := by omega
    simp [FrameHeaderContents.set_frame_type, FrameHeaderContents.get_frame_type,
      FrameHeaderType.ofU8, FrameHeaderType.toU8, h]
  case Single =>
    have h : (c.raw - c.raw % 4 + 3) % 4 = 3 := by omega
    simp [FrameHeaderContents.set_frame_type, FrameHeaderContents.get_frame_type,
      FrameHeaderType.ofU8, FrameHeaderType.toU8, h]

theorem listChunks_nil (n : Nat) : listChunks n ([] : List α) = [] := by
  rw [listChunks]
  simp

theorem listChunks_cons (n : Nat) (l : List α) (hn : 0 < n) (hl : l ≠ []) :
    listChunks n l = l.take n :: listChunks n (l.drop n) := by
  rw [listChunks, if_neg]
  rw [not_or]
  exact ⟨by simp [hl], hn.ne'⟩

theorem drop_length_lt_of_ne_nil (n : Nat) (l : List α) (hn : 0 < n) (hl : l ≠ []) :
    (l.drop n).length < l.length := by
  have h3 : 0 < l.length := List.length_pos.mpr hl
  simp only [List.length_drop]
  omega

theorem listChunks_flatten (n : Nat) (hn : 0 < n) (l : List α) :
    (listChunks n l).flatten = l := by
  suffices h : ∀ k (l : List α), l.length = k → (listChunks n l).flatten = l from h _ l rfl
  intro k
  induction k using Nat.strong_induction_on with
  | _ k ih =>
    intro l hk
    by_cases hl : l = []
    · subst hl
      simp [listChunks_nil]
    · rw [listChunks_cons n l hn hl, List.flatten_cons,
        ih (l.drop n).length (hk ▸ drop_length_lt_of_ne_nil n l hn hl) (l.drop n) rfl]
      exact List.take_append_drop n l

theorem listChunks_length_le (n : Nat) (l : List α) (c : List α)
    (hc : c ∈ listChunks n l) : c.length ≤ n := by
  suffices h : ∀ k (l : List α), l.length = k → ∀ c, c ∈ listChunks n l → c.length ≤ n from
    h _ l rfl c hc
  intro k
  induction k using Nat.strong_induction_on with
  | _ k ih =>
    intro l hk c hc
    by_cases hl : l = []
    · subst hl
      rw [listChunks_nil] at hc
      simp at hc
    by_cases hn : 0 < n
    · rw [listChunks_cons n l hn hl] at hc
      rcases List.mem_cons.mp hc with h | h
      · subst h
        simp
      · exact ih (l.drop n).length (hk ▸ drop_length_lt_of_ne_nil n l hn hl) (l.drop n) rfl c h
    · rw [listChunks] at hc
      simp [Nat.eq_zero_of_not_pos hn] at hc

theorem listChunks_single (n : Nat) (l : List α) (hn : 0 < n) (hl : l ≠ [])
    (hle : l.length ≤ n) : listChunks n l = [l] := by
  rw [listChunks_cons n l hn hl, List.take_of_length_le hle,
    List.drop_eq_nil_of_le hle, listChunks_nil]

theorem listChunks_ne_nil (n : Nat) (l : List α) (hn : 0 < n) (hl : l ≠ []) :
    listChunks n l ≠ [] := by
  rw [listChunks_cons n l hn hl]
  simp

/-- Claim C1, amended.  As stated the claim fails (see the counterexample):
the common `ChannelOpenResponse` encoder sets the control-flag true on the
message's own channel, which need not be 0.  Amended: every frame produced
by the control-message encoder is on channel 0 with control-flag false, and
every frame produced by the sensor, AV, input and bluetooth encoders has
control-flag false; the only encoder emitting control-flag true is the
common `ChannelOpenResponse` encoder, on the channel carried by the
message. -/
theorem C1_control_flag_amended (tag : WifiControlTag → Nat)
    (tCommon tResp tEvent tAck tSetup tVfi tInput tBt : Nat) :
    (∀ m fr, controlMessageToFrame tag m = some fr →
      fr.header.channel_id = ChannelId.CONTROL ∧ fr.header.frame.get_control = false) ∧
    (∀ m fr, commonMessageToFrame tCommon m = some fr →
      fr.header.frame.get_control = true ∧
      ∃ chan body, m = .ChannelOpenResponse chan body ∧ fr.header.channel_id = chan) ∧
    (∀ m fr, sensorMessageToFrame tResp tEvent m = some fr →
      fr.header.frame.get_control = false) ∧
    (∀ m fr, avChannelMessageToFrame tAck tSetup tVfi m = some fr →
      fr.header.frame.get_control = false) ∧
    (∀ m fr, inputMessageToFrame tInput m = some fr →
      fr.header.frame.get_control = false) ∧
    (∀ m fr, bluetoothMessageToFrame tBt m = some fr →
      fr.header.frame.get_control = false) := by
  refine ⟨?_, ?_, ?_, ?_, ?_, ?_⟩
  · intro m fr h
    cases m
    all_goals try exact Option.noConfusion h
    all_goals
      have h' := Option.some.inj h
      subst h'
      exact ⟨rfl, by simp [new_get_control]⟩
  · intro m fr h
    cases m with
    | ChannelOpenRequest body => exact Option.noConfusion h
    | ChannelOpenResponse chan body =>
        have h' := Option.some.inj h
        subst h'
        exact ⟨by simp [new_get_control], chan, body, rfl, rfl⟩
  · intro m fr h
    cases m
    all_goals try exact Option.noConfusion h
    all_goals
      have h' := Option.some.inj h
      subst h'
      simp [new_get_control]
  · intro m fr h
    cases m
    all_goals try exact Option.noConfusion h
    all_goals
      have h' := Option.some.inj h
      subst h'
      simp [new_get_control]
  · intro m fr h
    cases m
    all_goals try exact Option.noConfusion h
    all_goals
      have h' := Option.some.inj h
      subst h'
      simp [new_get_control]
  · intro m fr h
    cases m
    all_goals try exact Option.noConfusion h
    all_goals
      have h' := Option.some.inj h
      subst h'
      simp [new_get_control]

/-- Witness for C1_control_flag_amended: the ping-response frame, a
concrete control-encoder output. -/
theorem C1_witness :
    (⟨⟨.CONTROL, .new false .Single false⟩, [0, 0]⟩ : AndroidAutoFrame).header.channel_id =
        ChannelId.CONTROL ∧
    (⟨⟨.CONTROL, .new false .Single false⟩, [0, 0]⟩ :
        AndroidAutoFrame).header.frame.get_control = false :=
  (C1_control_flag_amended (fun _ => 0) 0 0 0 0 0 0 0 0).1 (.PingResponse []) _ rfl

/-- Counterexample to claim C1 as stated: the `ChannelOpenResponse` encoder
(`src/common.rs` lines 50–73), invoked by every non-control handler on its
own channel, produces a frame on channel SENSOR (id 2 ≠ 0) whose
control-flag (bit 2) is true. -/
theorem C1_counterexample :
    commonMessageToFrame 7 (.ChannelOpenResponse .SENSOR []) =
      some ⟨⟨.SENSOR, .new true .Single true⟩, [0, 7]⟩ ∧
    ChannelId.SENSOR ≠ ChannelId.CONTROL ∧
    (FrameHeaderContents.new true .Single true).get_control = true :=
  ⟨rfl, by decide, by decide⟩

/-- Claim C2, amended.  As stated the claim fails (see the counterexample):
the `PingResponse` arm of the control encoder builds its header with
`FrameHeaderContents::new(false, Single, false)`, i.e. encrypted-flag
false.  Amended: among the control-channel frames sent after
`AUTH_COMPLETE`, `SHUTDOWN_RESPONSE`, `AUDIO_FOCUS_RESPONSE` and
`SERVICE_DISCOVERY_RESPONSE` carry the encrypted-flag true, while
`PING_RESPONSE` (the Ready-state ping reply) and `PING_REQUEST` are
produced with the encrypted-flag false, as are the pre-handshake messages. -/
theorem C2_encryption_amended (tag : WifiControlTag → Nat) :
    ∀ m fr, controlMessageToFrame tag m = some fr →
      fr.header.frame.get_encryption = controlFrameEncrypted m := by
  intro m fr h
  cases m
  all_goals try exact Option.noConfusion h
  all_goals
    have h' := Option.some.inj h
    subst h'
    simp [controlFrameEncrypted, new_get_encryption]

/-- Witness for C2_encryption_amended: the shutdown-response frame, a
concrete encrypted control-encoder output. -/
theorem C2_witness :
    (⟨⟨.CONTROL, .new true .Single false⟩, [0, 0]⟩ :
        AndroidAutoFrame).header.frame.get_encryption =
      controlFrameEncrypted (.ShutdownResponse []) :=
  C2_encryption_amended (fun _ => 0) (.ShutdownResponse []) _ rfl

/-- Counterexample to claim C2 as stated: the PING_RESPONSE frame produced
in the Ready state (`src/control.rs` lines 154–169) has the encrypted-flag
(bit 3) false, not true. -/
theorem C2_counterexample :
    controlMessageToFrame (fun _ => 0) (.PingResponse []) =
      some ⟨⟨.CONTROL, .new false .Single false⟩, [0, 0]⟩ ∧
    (FrameHeaderContents.new false .Single false).get_encryption = false :=
  ⟨rfl, by decide⟩

/-- Claim C3, amended.  As stated the claim fails at payload length exactly
16384 (see the counterexample): the source tests `d.len() <
MAX_FRAME_DATA_SIZE` strictly, so a payload of exactly 16384 bytes takes
the splitting branch and is emitted as a single frame whose fragment type
is overwritten to First.  Amended: for `len(d) < 16384`, exactly one frame
carrying `d` with the given header; for `len(d) ≥ 16384`, a non-empty
sequence of frames whose payloads concatenate to `d`, each payload at most
16384 bytes, the frame at index 0 typed First, the frame at the last index
typed Last when it is not also the first, and every other frame typed
Middle. -/
theorem C3_build_multi_frame_amended (f : FrameHeader) (d : List Nat) :
    (d.length < 16384 → build_multi_frame f d = [⟨f, d⟩]) ∧
    (16384 ≤ d.length →
      ((build_multi_frame f d).map AndroidAutoFrame.data).flatten = d ∧
      (∀ fr ∈ build_multi_frame f d, fr.data.length ≤ 16384) ∧
      0 < (build_multi_frame f d).length ∧
      (∀ (i : Nat) (h : i < (build_multi_frame f d).length),
        ((build_multi_frame f d)[i]).header.frame.get_frame_type =
          (if i = 0 then FrameHeaderType.First
           else if i = (build_multi_frame f d).length - 1 then FrameHeaderType.Last
           else FrameHeaderType.Middle))) := by
  constructor
  · intro hlt
    have hlt' : d.length < MAX_FRAME_DATA_SIZE := by
      simpa [MAX_FRAME_DATA_SIZE] using hlt
    rw [build_multi_frame, if_pos hlt']
  · intro hge
    have hnot : ¬ d.length < MAX_FRAME_DATA_SIZE := by
      simp [MAX_FRAME_DATA_SIZE]
      omega
    have hd : d ≠ [] := by
      intro he
      rw [he] at hge
      simp at hge
    have hpos : 0 < MAX_FRAME_DATA_SIZE := by norm_num [MAX_FRAME_DATA_SIZE]
    have hb : build_multi_frame f d =
        (listChunks MAX_FRAME_DATA_SIZE d).enum.map (fun ip =>
          ⟨⟨f.channel_id, f.frame.set_frame_type
            (if ip.1 = 0 then .First
             else if ip.1 = (listChunks MAX_FRAME_DATA_SIZE d).length - 1 then .Last
             else .Middle)⟩, ip.2⟩) := by
      rw [build_multi_frame, if_neg hnot]
    have hlen : (build_multi_frame f d).length = (listChunks MAX_FRAME_DATA_SIZE d).length := by
      rw [hb]
      simp [List.enum_length]
    refine ⟨?_, ?_, ?_, ?_⟩
    · rw [hb, List.map_map]
      have hcomp : (AndroidAutoFrame.data ∘ (fun ip : Nat × List Nat =>
          (⟨⟨f.channel_id, f.frame.set_frame_type
            (if ip.1 = 0 then .First
             else if ip.1 = (listChunks MAX_FRAME_DATA_SIZE d).length - 1 then .Last
             else .Middle)⟩, ip.2⟩ : AndroidAutoFrame))) = Prod.snd := by
        funext ip
        rfl
      rw [hcomp, List.enum_map_snd]
      exact listChunks_flatten MAX_FRAME_DATA_SIZE hpos d
    · intro fr hfr
      rw [hb] at hfr
      rcases List.mem_map.mp hfr with ⟨ip, hip, hfr'⟩
      have hdata : fr.data = ip.2 := by rw [← hfr']
      rw [hdata]
      have h2 : ip.2 ∈ listChunks MAX_FRAME_DATA_SIZE d := by
        rcases List.mem_iff_getElem.mp hip with ⟨i, hi, hget⟩
        have heq := List.getElem_enum (listChunks MAX_FRAME_DATA_SIZE d) i
          (by simpa using hi)
        rw [heq] at hget
        have hi2 : i < (listChunks MAX_FRAME_DATA_SIZE d).length := by
          simpa [List.enum_length] using hi
        have hsnd : ip.2 = (listChunks MAX_FRAME_DATA_SIZE d)[i] := by
          rw [← hget]
        rw [hsnd]
        exact List.getElem_mem _
      exact listChunks_length_le MAX_FRAME_DATA_SIZE d ip.2 h2
    · rw [hlen]
      exact List.length_pos.mpr (listChunks_ne_nil MAX_FRAME_DATA_SIZE d hpos hd)
    · intro i h
      have hi : i < (listChunks MAX_FRAME_DATA_SIZE d).length := by rwa [hlen] at h
      have hstep : (build_multi_frame f d)[i] =
          (⟨⟨f.channel_id, f.frame.set_frame_type
            (if i = 0 then .First
             else if i = (listChunks MAX_FRAME_DATA_SIZE d).length - 1 then .Last
             else .Middle)⟩, (listChunks MAX_FRAME_DATA_SIZE d)[i]⟩ :
            AndroidAutoFrame) := by
        rw [List.getElem_of_eq hb h]
        simp only [List.getElem_map, List.getElem_enum]
      rw [hstep, get_set_frame_type, hlen]

/-- Witness for C3_build_multi_frame_amended: at a 16384-byte payload the
split branch applies and the chunk payloads concatenate back to the
payload. -/
theorem C3_witness :
    ((build_multi_frame demoHeader (List.replicate 16384 0)).map
      AndroidAutoFrame.data).flatten = List.replicate 16384 0 :=
  ((C3_build_multi_frame_amended demoHeader (List.replicate 16384 0)).2
    (by simp only [List.length_replicate]; omega)).1

/-- Counterexample to claim C3 as stated: for a payload of exactly 16384
bytes and a header typed Single, the claim predicts one frame carrying the
payload with fragment type Single, but `build_multi_frame` emits one frame
whose fragment type is First. -/
theorem C3_counterexample :
    (build_multi_frame demoHeader (List.replicate 16384 0)).map
        (fun fr => fr.header.frame.get_frame_type) = [FrameHeaderType.First] ∧
    demoHeader.frame.get_frame_type = FrameHeaderType.Single ∧
    FrameHeaderType.First ≠ FrameHeaderType.Single := by
  refine ⟨?_, by decide, by decide⟩
  have hne : (List.replicate 16384 (0:Nat)) ≠ [] := by
    intro he
    have h := congrArg List.length he
    simp only [List.length_replicate, List.length_nil] at h
    omega
  have hnot : ¬ (List.replicate 16384 (0:Nat)).length < MAX_FRAME_DATA_SIZE := by
    simp only [List.length_replicate, MAX_FRAME_DATA_SIZE]
    omega
  have hsingle : listChunks MAX_FRAME_DATA_SIZE (List.replicate 16384 (0:Nat)) =
      [List.replicate 16384 0] :=
    listChunks_single MAX_FRAME_DATA_SIZE (List.replicate 16384 (0:Nat))
      (by norm_num [MAX_FRAME_DATA_SIZE]) hne
      (by simp only [List.length_replicate, MAX_FRAME_DATA_SIZE]; omega)
  rw [build_multi_frame, if_neg hnot]
  simp only [hsingle, List.enum_singleton, List.map_cons, List.map_nil,
    List.length_singleton, get_set_frame_type]
  rfl

/-- Claim C4, amended.  As stated the claim fails (see the counterexample):
the descriptor list is assembled by visiting the handler vector in the
fixed order `chan_visit = [7, 4, 5, 6, 2, 3, 8, 9, 10, 1]`, not in
handler-registration (declaration) order.  Amended: the
ServiceDiscoveryResponse's `channels[]` is exactly the `Some(descriptor)`
values of the handlers visited in `chan_visit` order, assembled once at
session setup and echoed unchanged by the control handler; when the control
handler (index 0, never visited) yields no descriptor, this list is a
permutation of the declaration-order list. -/
theorem C4_service_discovery_amended (config : HeadUnitInfo)
    (build : Nat → Option ChannelDescriptor) (hs : Bool) :
    controlReceive config (assembleChannels build) hs .ServiceDiscoveryRequest =
      ([.writeServiceDiscoveryResponse {
          car_model := config.car_model
          can_play_native_media_during_vr := config.native_media
          car_serial := config.car_serial
          car_year := config.car_year
          head_unit_name := config.name
          headunit_manufacturer := config.head_manufacturer
          headunit_model := config.head_model
          hide_clock := config.hide_clock
          left_hand_drive_vehicle := config.left_hand
          sw_build := config.sw_build
          sw_version := config.sw_version
          channels := chanVisit.filterMap build }], none) ∧
    (build 0 = none →
      (chanVisit.filterMap build).Perm (specDeclarationOrderChannels build)) := by
  constructor
  · rfl
  · intro h0
    have hperm : chanVisit.Perm ((List.range 10).map Nat.succ) := by decide
    have hrange : specDeclarationOrderChannels build =
        ((List.range 10).map Nat.succ).filterMap build := by
      unfold specDeclarationOrderChannels
      rw [List.range_succ_eq_map, List.filterMap_cons, h0]
    rw [hrange]
    exact hperm.filterMap build

/-- Witness for C4_service_discovery_amended at the concrete handler
table `demoBuild`. -/
theorem C4_witness :
    (chanVisit.filterMap demoBuild).Perm (specDeclarationOrderChannels demoBuild) :=
  (C4_service_discovery_amended demoConfig demoBuild false).2 rfl

/-- Counterexample to claim C4 as stated: with every non-control handler
contributing a descriptor carrying its own index, the response lists the
descriptors in `chan_visit` order 7, 4, 5, 6, 2, 3, 8, 9, 10, 1 — not in
the handler-registration order 1, 2, …, 10 the claim requires. -/
theorem C4_counterexample :
    (controlReceive demoConfig (assembleChannels demoBuild) false
        .ServiceDiscoveryRequest).1.map
        (fun o => match o with
          | .writeServiceDiscoveryResponse r => some r.channels
          | _ => none) =
      [some [⟨7⟩, ⟨4⟩, ⟨5⟩, ⟨6⟩, ⟨2⟩, ⟨3⟩, ⟨8⟩, ⟨9⟩, ⟨10⟩, ⟨1⟩]] ∧
    specDeclarationOrderChannels demoBuild =
      [⟨1⟩, ⟨2⟩, ⟨3⟩, ⟨4⟩, ⟨5⟩, ⟨6⟩, ⟨7⟩, ⟨8⟩, ⟨9⟩, ⟨10⟩] ∧
    ([⟨7⟩, ⟨4⟩, ⟨5⟩, ⟨6⟩, ⟨2⟩, ⟨3⟩, ⟨8⟩, ⟨9⟩, ⟨10⟩, ⟨1⟩] : List ChannelDescriptor) ≠
      [⟨1⟩, ⟨2⟩, ⟨3⟩, ⟨4⟩, ⟨5⟩, ⟨6⟩, ⟨7⟩, ⟨8⟩, ⟨9⟩, ⟨10⟩] :=
  ⟨by decide, by decide, by decide⟩

/-- Claim C5 (confirmed): in state AwaitingVersionResponse, a
VERSION_RESPONSE with status 0xFFFF makes `receive_data` return the
incompatible-version error with no frame sent, and any other status sends
nothing but initiates the TLS handshake via `start_handshake`. -/
theorem C5_version_response (config : HeadUnitInfo)
    (channels : List ChannelDescriptor) (hs : Bool) (major minor status : Nat) :
    controlReceive config channels hs (.VersionResponse major minor status) =
      if status = 0xFFFF then ([], some .versionMismatch)
      else ([.startHandshake], none) := rfl

/-- Claim C6, amended.  As stated the claim fails at the 64-bit boundary
(see the counterexample): the reply timestamp is computed with wrapping
64-bit arithmetic, so it equals `(t + 1) mod 2^64`, which differs from
`t + 1` at `t = 2^64 - 1`.  Amended: a PING_REQUEST with timestamp `t`
received in the Ready state produces exactly one PING_RESPONSE whose
timestamp is `(t + 1) mod 2^64`, and every encoded PING_RESPONSE frame is
on channel 0. -/
theorem C6_ping_amended (config : HeadUnitInfo) (channels : List ChannelDescriptor)
    (hs : Bool) (t : Nat) :
    controlReceive config channels hs (.PingRequest t) =
      ([.writePingResponse ((t + 1) % U64_MOD)], none) ∧
    (∀ (tag : WifiControlTag → Nat) (body : List Nat) fr,
      controlMessageToFrame tag (.PingResponse body) = some fr →
      fr.header.channel_id = ChannelId.CONTROL) := by
  refine ⟨rfl, ?_⟩
  intro tag body fr h
  have h' := Option.some.inj h
  subst h'
  rfl

/-- Witness for C6_ping_amended at timestamp 42: the reply carries 43, on
channel 0. -/
theorem C6_witness :
    controlReceive demoConfig [] false (.PingRequest 42) =
      ([.writePingResponse 43], none) ∧
    (⟨⟨.CONTROL, .new false .Single false⟩, [0, 0]⟩ :
        AndroidAutoFrame).header.channel_id = ChannelId.CONTROL := by
  have h := C6_ping_amended demoConfig [] false 42
  refine ⟨?_, h.2 (fun _ => 0) [] _ rfl⟩
  rw [h.1]
  decide

/-- Counterexample to claim C6 as stated: at timestamp `2^64 − 1` the
reply's timestamp is 0, not `t + 1`. -/
theorem C6_counterexample :
    controlReceive demoConfig [] false (.PingRequest (2 ^ 64 - 1)) =
      ([.writePingResponse 0], none) ∧
    (0 : Nat) ≠ (2 ^ 64 - 1) + 1 :=
  ⟨by decide, by decide⟩

/-- Claim C7 (confirmed): for an AUDIO_FOCUS_REQUEST carrying a focus
type, the handler replies with an AUDIO_FOCUS_RESPONSE whose state maps
GAIN_NAVI to GAIN, RELEASE to LOSS, NONE to NONE, and every other type to
itself (GAIN to GAIN, GAIN_TRANSIENT to GAIN_TRANSIENT). -/
theorem C7_audio_focus (config : HeadUnitInfo) (channels : List ChannelDescriptor)
    (hs : Bool) (ty : AudioFocusType) :
    controlReceive config channels hs (.AudioFocusRequest (some ty)) =
      ([.writeAudioFocusResponse
        (match ty with
          | .GAIN_NAVI => .GAIN
          | .RELEASE => .LOSS
          | .NONE => .NONE
          | .GAIN => .GAIN
          | .GAIN_TRANSIENT => .GAIN_TRANSIENT)], none) := by
  cases ty <;> rfl

/-- Claim C8, amended.  As stated the claim fails (see the counterexample):
the sensor handler never calls the integration's start-sensor operation —
its `_main` parameter is unused — and always replies with status OK.
Amended: for sensor types DRIVING_STATUS and NIGHT_DATA the handler
unconditionally replies SENSOR_START_RESPONSE{OK}, then immediately emits
one SENSOR_EVENT_INDICATION (DrivingStatus UNRESTRICTED, respectively
NightMode{is_night = false}); for every other sensor type it writes the OK
response and then panics (`todo!()`). -/
theorem C8_sensor_start_amended (startSensorResult : Bool) :
    sensorReceiveStart startSensorResult .DRIVING_STATUS =
      ([.writeSensorStartResponse .OK, .writeDrivingStatusEvent .UNRESTRICTED], none) ∧
    sensorReceiveStart startSensorResult .NIGHT_DATA =
      ([.writeSensorStartResponse .OK, .writeNightModeEvent false], none) ∧
    sensorReceiveStart startSensorResult .OTHER =
      ([.writeSensorStartResponse .OK], some .panicked) :=
  ⟨rfl, rfl, rfl⟩

/-- Counterexample to claim C8 as stated: with a failing integration the
claim prescribes a FAIL status, but the handler replies OK. -/
theorem C8_counterexample :
    (sensorReceiveStart false .DRIVING_STATUS).1 =
      [.writeSensorStartResponse .OK, .writeDrivingStatusEvent .UNRESTRICTED] ∧
    specSensorStartStatus false = .FAIL ∧
    StatusEnum.OK ≠ StatusEnum.FAIL :=
  ⟨rfl, rfl, by decide⟩

theorem videoSession_foldl (trace : List VideoIn) (st0 : Option Int) :
    trace.foldl videoSessionStep st0 =
      match (trace.filterMap startSessionOf).getLast? with
      | some s => some s
      | none => st0 := by
  induction trace generalizing st0 with
  | nil => rfl
  | cons m tr ih =>
    cases m with
    | StartIndication s =>
        simp only [List.foldl_cons, List.filterMap_cons, videoSessionStep, startSessionOf]
        rw [ih]
        cases h : (tr.filterMap startSessionOf).getLast? <;>
          simp [List.getLast?_cons, List.getLastD_eq_getLast?, h]
    | MediaIndicationAck =>
        simp only [List.foldl_cons, List.filterMap_cons, videoSessionStep, startSessionOf]
        exact ih st0
    | MediaIndication timestamp data =>
        simp only [List.foldl_cons, List.filterMap_cons, videoSessionStep, startSessionOf]
        exact ih st0
    | SetupRequest =>
        simp only [List.foldl_cons, List.filterMap_cons, videoSessionStep, startSessionOf]
        exact ih st0
    | SetupResponse =>
        simp only [List.foldl_cons, List.filterMap_cons, videoSessionStep, startSessionOf]
        exact ih st0
    | VideoFocusRequest mode =>
        simp only [List.foldl_cons, List.filterMap_cons, videoSessionStep, startSessionOf]
        exact ih st0
    | VideoIndicationResponse =>
        simp only [List.foldl_cons, List.filterMap_cons, videoSessionStep, startSessionOf]
        exact ih st0

theorem videoSessionAfter_eq_lastStart (trace : List VideoIn) :
    videoSessionAfter trace = lastStartSession trace := by
  unfold videoSessionAfter lastStartSession
  rw [videoSession_foldl]
  cases h : (trace.filterMap startSessionOf).getLast? <;> rfl

/-- Claim C9 (confirmed): with a video-supporting integration, an
AV_MEDIA_INDICATION first delivers the payload and optional timestamp to
the integration; when an AV_START_INDICATION was received before, exactly
one AV_MEDIA_ACK_INDICATION follows with value 1 and the session of the
most recent AV_START_INDICATION; with no recorded session the handler
fails with VideoChannelNotOpen instead of acking. -/
theorem C9_video_media_ack (chan : ChannelId) (trace : List VideoIn)
    (timestamp : Option Nat) (data : List Nat) :
    videoReceiveAv true chan (videoSessionAfter trace)
        (.MediaIndication timestamp data) =
      match lastStartSession trace with
      | some s =>
          (some s, [.deliverVideo data timestamp, .writeMediaAck chan s 1], none)
      | none =>
          (none, [.deliverVideo data timestamp], some .videoChannelNotOpen) := by
  rw [videoSessionAfter_eq_lastStart]
  cases h : lastStartSession trace <;> rfl

/-- Claim C10 (confirmed): every message decoder unconditionally reads the
first two payload bytes as the message-type tag, so every frame whose
payload is shorter than 2 bytes makes the control, common, AV, input,
sensor, bluetooth, navigation and media-status decoders panic (slice copy
out of range) rather than return the conversion's error value. -/
theorem C10_short_payload_panics (f : AndroidAutoFrame) (h : f.data.length < 2)
    (d1 : Nat → Option WifiControlTag) (p1 p2 p3 p4 p5 : List Nat → Bool)
    (d2 : Nat → Option WifiCommonTag) (p6 : List Nat → Bool)
    (d3 : Nat → Option WifiAvTag) (p7 p8 p9 : List Nat → Bool)
    (d4 : Nat → Option WifiInputTag) (p10 : List Nat → Bool)
    (d5 : Nat → Option WifiSensorTag) (p11 : List Nat → Bool)
    (d6 : Nat → Option WifiBluetoothTag) (p12 : List Nat → Bool)
    (d7 : Nat → Option WifiNavigationTag) (p13 p14 p15 : List Nat → Bool)
    (d8 : Nat → Option WifiMediaInfoTag) (p16 p17 : List Nat → Bool) :
    controlFrameDecode d1 p1 p2 p3 p4 p5 f = .panicked ∧
    commonFrameDecode d2 p6 f = .panicked ∧
    avFrameDecode d3 p7 p8 p9 f = .panicked ∧
    inputFrameDecode d4 p10 f = .panicked ∧
    sensorFrameDecode d5 p11 f = .panicked ∧
    bluetoothFrameDecode d6 p12 f = .panicked ∧
    navigationFrameDecode d7 p13 p14 p15 f = .panicked ∧
    mediaStatusFrameDecode d8 p16 p17 f = .panicked := by
  have hr : readTagU16 f.data = .panicked := by
    unfold readTagU16
    rw [if_neg (by omega)]
  refine ⟨?_, ?_, ?_, ?_, ?_, ?_, ?_, ?_⟩ <;>
    simp [controlFrameDecode, commonFrameDecode, avFrameDecode, inputFrameDecode,
      sensorFrameDecode, bluetoothFrameDecode, navigationFrameDecode,
      mediaStatusFrameDecode, hr]

/-- Witness for C10_short_payload_panics: the empty-payload frame makes the
control decoder panic. -/
theorem C10_witness :
    controlFrameDecode (fun _ => none) (fun _ => false) (fun _ => false)
      (fun _ => false) (fun _ => false) (fun _ => false) demoEmptyFrame = .panicked :=
  (C10_short_payload_panics demoEmptyFrame (by decide)
    (fun _ => none) (fun _ => false) (fun _ => false) (fun _ => false) (fun _ => false)
    (fun _ => false)
    (fun _ => none) (fun _ => false)
    (fun _ => none) (fun _ => false) (fun _ => false) (fun _ => false)
    (fun _ => none) (fun _ => false)
    (fun _ => none) (fun _ => false)
    (fun _ => none) (fun _ => false)
    (fun _ => none) (fun _ => false) (fun _ => false) (fun _ => false)
    (fun _ => none) (fun _ => false) (fun _ => false)).1
